import Mathlib

/-!
Verification of the COVID-19 diagnosis expert system
(`covid_expert_system.py`).

The program holds a CLIPS knowledge base (`KNOWLEDGE_BASE`): a `patient`
template with four symbol slots defaulting to `no`, a `result` template
with one string slot, and three rules.  `run_diagnosis` resets the CLIPS
environment, asserts one `patient` fact built by interpolating the four
raw UI variable strings, runs the engine, and displays the `message` slot
of the first `result` fact found while iterating the environment's facts
(falling back to "Could not determine diagnosis." when none exists).

The CLIPS engine itself is an external library; we embed its behaviour on
this knowledge base: working memory is the list of facts in assertion
order (reset leaves only the initial fact), and each inference cycle
fires one activated, not-yet-fired rule.  Conflict resolution is modelled
as definition-order priority — rule 1 before rule 2 before rule 3, the
fixed deterministic order the knowledge base's `(not (result))` guards
are written for — and refraction keeps a rule from firing twice on the
same basis (here, the single `patient` fact).
-/

/-- Message asserted by `rule-1-high-risk` (line 25 of the source). -/
def HIGH_RISK_MSG : String :=
  "Diagnosis: High Risk for COVID-19. Please get tested immediately and isolate."

/-- Message asserted by `rule-2-moderate-risk` (line 33 of the source). -/
def MODERATE_RISK_MSG : String :=
  "Diagnosis: Moderate Risk for COVID-19. Monitor symptoms closely and consider testing."

/-- Message asserted by `rule-3-low-risk` (line 41 of the source). -/
def LOW_RISK_MSG : String :=
  "Diagnosis: Low Risk. Symptoms may be due to other causes. Monitor your health."

/-- Fallback message set by `run_diagnosis` when no `result` fact is found
(line 189 of the source). -/
def NO_DIAGNOSIS_MSG : String := "Could not determine diagnosis."

/-- A CLIPS fact of this knowledge base: the `initial-fact` asserted by
`(reset)`, a `patient` fact (four symbol slots), or a `result` fact (one
string slot).  Slot values are raw strings because `run_diagnosis`
interpolates the UI variables into the fact string unchecked. -/
inductive CFact where
  | initial : CFact
  | patient (fever cough loss_of_smell contact_with_patient : String) : CFact
  | result (message : String) : CFact
deriving DecidableEq, Repr

/-- Does a fact use the `result` template? (`fact.template.name == 'result'`). -/
def isResult : CFact → Bool
  | .result _ => true
  | _ => false

/-- Does a fact use the `patient` template? (pattern `(patient)` of rule 3). -/
def isPatient : CFact → Bool
  | .patient _ _ _ _ => true
  | _ => false

/-- Pattern of rule 1: `(patient (fever yes) (loss-of-smell yes))`. -/
def matchesRule1 : CFact → Bool
  | .patient fe _ sm _ => fe == "yes" && sm == "yes"
  | _ => false

/-- Patient pattern of rule 2:
`(patient (fever yes) (cough yes) (contact-with-patient yes))`. -/
def matchesRule2 : CFact → Bool
  | .patient fe co _ ct => fe == "yes" && co == "yes" && ct == "yes"
  | _ => false

/-- The three rule names of `KNOWLEDGE_BASE`, in definition order. -/
inductive RuleName where
  | rule_1_high_risk
  | rule_2_moderate_risk
  | rule_3_low_risk
deriving DecidableEq, Repr

/-- Equality test on rule names (used for the refraction record). -/
def ruleEq : RuleName → RuleName → Bool
  | .rule_1_high_risk, .rule_1_high_risk => true
  | .rule_2_moderate_risk, .rule_2_moderate_risk => true
  | .rule_3_low_risk, .rule_3_low_risk => true
  | _, _ => false

/-- Left-hand side of each rule: is the rule activated by working memory
`fs`?  Rules 2 and 3 carry the `(not (result))` conditional element. -/
def lhs (r : RuleName) (fs : List CFact) : Bool :=
  match r with
  | .rule_1_high_risk => fs.any matchesRule1
  | .rule_2_moderate_risk => fs.any matchesRule2 && !(fs.any isResult)
  | .rule_3_low_risk => fs.any isPatient && !(fs.any isResult)

/-- Right-hand side of each rule: the `result` fact it asserts. -/
def rhs (r : RuleName) : CFact :=
  match r with
  | .rule_1_high_risk => .result HIGH_RISK_MSG
  | .rule_2_moderate_risk => .result MODERATE_RISK_MSG
  | .rule_3_low_risk => .result LOW_RISK_MSG

/-- One agenda selection: the first rule, in definition order, that is
activated and has not already fired on this basis (refraction). -/
def agenda (fs : List CFact) (fired : List RuleName) : Option RuleName :=
  if lhs .rule_1_high_risk fs && !(fired.any (ruleEq .rule_1_high_risk)) then
    some .rule_1_high_risk
  else if lhs .rule_2_moderate_risk fs && !(fired.any (ruleEq .rule_2_moderate_risk)) then
    some .rule_2_moderate_risk
  else if lhs .rule_3_low_risk fs && !(fired.any (ruleEq .rule_3_low_risk)) then
    some .rule_3_low_risk
  else
    none

/-- The inference loop of `env.run()`: fire the selected activation —
appending the asserted `result` fact to working memory and recording the
firing — until the agenda is empty.  Fuel bounds the number of cycles;
three (the number of rules) always suffices here. -/
def runEngine : Nat → List CFact → List RuleName → List CFact
  | 0, fs, _ => fs
  | n + 1, fs, fired =>
    match agenda fs fired with
    | none => fs
    | some r => runEngine n (fs ++ [rhs r]) (r :: fired)

/-- Number of rules in `KNOWLEDGE_BASE`, used as fuel for `runEngine`. -/
def NUM_RULES : Nat := 3

/-- `self.env.reset()`: retract every fact (whatever the previous run
left) and assert the initial fact. -/
def reset_env (_prev : List CFact) : List CFact := [CFact.initial]

/-- The fact built by the interpolated `fact_string` of `run_diagnosis`
(line 172): the four raw strings pass into the slots unchecked. -/
def assert_string (fever cough loss_of_smell contact : String) : CFact :=
  .patient fever cough loss_of_smell contact

/-- The scan of `env.facts()` in `run_diagnosis`: return the `message`
slot of the first `result` fact, stopping at the first match. -/
def displayLoop : List CFact → Option String
  | [] => none
  | .result m :: _ => some m
  | _ :: fs => displayLoop fs

/-- Steps 5-6 of `run_diagnosis`: display the first `result` fact's
message, or the fallback when no `result` fact was found. -/
def display (fs : List CFact) : String :=
  match displayLoop fs with
  | some m => m
  | none => NO_DIAGNOSIS_MSG

/-- One full `run_diagnosis` call starting from the environment state
`prev` left by earlier runs: reset, assert the patient fact from the four
UI variable values, run the engine, and scan for the result.  Returns the
displayed message and the final environment state. -/
def run_diagnosis_from (prev : List CFact)
    (fever cough loss_of_smell contact : String) : String × List CFact :=
  let env := runEngine NUM_RULES
    (reset_env prev ++ [assert_string fever cough loss_of_smell contact]) []
  (display env, env)

/-- Working memory after `env.run()` for the given four UI values. -/
def envAfterRun (fever cough loss_of_smell contact : String) : List CFact :=
  (run_diagnosis_from [] fever cough loss_of_smell contact).2

/-- The message `run_diagnosis` displays for the given four UI values. -/
def run_diagnosis (fever cough loss_of_smell contact : String) : String :=
  (run_diagnosis_from [] fever cough loss_of_smell contact).1

/-- The checkbutton encoding: `onvalue="yes"`, `offvalue="no"`. -/
def toSymbol (b : Bool) : String := if b then "yes" else "no"

/-- The spec's SymptomRecord: four boolean flags. -/
structure SymptomRecord where
  fever : Bool
  cough : Bool
  lossOfSmell : Bool
  contactWithCase : Bool
deriving DecidableEq, Repr

/-- Classification of a boolean symptom record: encode each flag as the
checkbutton symbol and run `run_diagnosis`. -/
def classify (r : SymptomRecord) : String :=
  run_diagnosis (toSymbol r.fever) (toSymbol r.cough)
    (toSymbol r.lossOfSmell) (toSymbol r.contactWithCase)

/-- Number of `result` facts in working memory. -/
def resultCount (fs : List CFact) : Nat := (fs.filter isResult).length

/-- The `patient` deftemplate (lines 10-15): every slot defaults to the
symbol `no` when unspecified. -/
structure Patient where
  fever : String := "no"
  cough : String := "no"
  loss_of_smell : String := "no"
  contact_with_patient : String := "no"
deriving DecidableEq, Repr

/-- Diagnosis of an asserted `patient` template fact (reset environment,
the fact's slots, run, scan). -/
def classifyPatientFact (p : Patient) : String :=
  display (runEngine NUM_RULES
    [CFact.initial, CFact.patient p.fever p.cough p.loss_of_smell p.contact_with_patient] [])

/-- Initial value of the UI variable `self.fever_var` (line 96). -/
def fever_var : String := "no"

/-- Initial value of the UI variable `self.cough_var` (line 97). -/
def cough_var : String := "no"

/-- Initial value of the UI variable `self.loss_of_smell_var` (line 98). -/
def loss_of_smell_var : String := "no"

/-- Initial value of the UI variable `self.contact_var` (line 99). -/
def contact_var : String := "no"

/-- Modelled from the spec (section 4.1): the direct priority-ordered
else-if chain the spec gives for RiskClassifier, written from the spec's
words for comparison with the rule-engine formulation. -/
def classifySpecChain (r : SymptomRecord) : String :=
  if r.fever && r.lossOfSmell then HIGH_RISK_MSG
  else if r.fever && r.cough && r.contactWithCase then MODERATE_RISK_MSG
  else LOW_RISK_MSG

/-- `(s == "yes") = false` for any string other than `"yes"`. -/
lemma beq_yes_false {s : String} (h : s ≠ "yes") : (s == "yes") = false := by
  cases hb : s == "yes" with
  | false => rfl
  | true => exact absurd (eq_of_beq hb) h

/-- The working memory `env.run()` leaves behind: the initial fact, the
asserted patient fact, and the single result fact of whichever rule
fires. -/
lemma envAfterRun_spec (fe co sm ct : String) :
    envAfterRun fe co sm ct =
      [CFact.initial, CFact.patient fe co sm ct,
        if fe == "yes" && sm == "yes" then CFact.result HIGH_RISK_MSG
        else if fe == "yes" && co == "yes" && ct == "yes" then CFact.result MODERATE_RISK_MSG
        else CFact.result LOW_RISK_MSG] := by
  cases h1 : fe == "yes" <;> cases h2 : sm == "yes" <;>
    cases h3 : co == "yes" <;> cases h4 : ct == "yes" <;>
      simp [envAfterRun, run_diagnosis_from, reset_env, assert_string, NUM_RULES, runEngine,
        agenda, lhs, rhs, matchesRule1, matchesRule2, isPatient, isResult, ruleEq,
        h1, h2, h3, h4]

/-- The displayed message, as a function of the four raw slot values. -/
lemma run_diagnosis_spec (fe co sm ct : String) :
    run_diagnosis fe co sm ct =
      if fe == "yes" && sm == "yes" then HIGH_RISK_MSG
      else if fe == "yes" && co == "yes" && ct == "yes" then MODERATE_RISK_MSG
      else LOW_RISK_MSG := by
  have h : run_diagnosis fe co sm ct = display (envAfterRun fe co sm ct) := rfl
  rw [h, envAfterRun_spec]
  cases h1 : fe == "yes" && sm == "yes" <;>
    cases h2 : fe == "yes" && co == "yes" && ct == "yes" <;>
      simp [display, displayLoop, h1, h2]

/-- Claim C1: every symptom record with fever and loss of smell — all 8
combinations of the other two flags, the all-true record included —
classifies as the high-risk message; rule 1 pre-empts rule 2. -/
theorem high_risk_whenever_fever_and_loss_of_smell :
    ∀ c k : Bool, classify ⟨true, c, true, k⟩ = HIGH_RISK_MSG := by decide

/-- Claim C2: for all 16 boolean input combinations, classification
returns exactly one of the three defined messages, and the fallback
branch (no `result` fact found) is unreachable. -/
theorem classify_total_three_messages :
    ∀ f c s k : Bool,
      (classify ⟨f, c, s, k⟩ = HIGH_RISK_MSG ∨ classify ⟨f, c, s, k⟩ = MODERATE_RISK_MSG ∨
        classify ⟨f, c, s, k⟩ = LOW_RISK_MSG) ∧
      displayLoop (envAfterRun (toSymbol f) (toSymbol c) (toSymbol s) (toSymbol k)) ≠ none := by
  decide

/-- Claim C3: the record with fever, cough and contact true but loss of
smell false classifies as the moderate-risk message. -/
theorem moderate_risk_when_fever_cough_contact_without_smell :
    classify ⟨true, true, false, true⟩ = MODERATE_RISK_MSG := by decide

/-- Claim C4: every record matching neither rule 1 (fever and loss of
smell) nor rule 2 (fever, cough and contact), the all-false record
included, classifies as the low-risk message. -/
theorem low_risk_when_no_rule_matches :
    ∀ f c s k : Bool, (f && s) = false → (f && c && k) = false →
      classify ⟨f, c, s, k⟩ = LOW_RISK_MSG := by decide

/-- Witness for claim C4 at the all-false record. -/
theorem low_risk_when_no_rule_matches_witness :
    (false && false) = false ∧ (false && false && false) = false ∧
      classify ⟨false, false, false, false⟩ = LOW_RISK_MSG :=
  ⟨rfl, rfl, low_risk_when_no_rule_matches false false false false rfl rfl⟩

/-- Claim C5: for every symptom record, exactly one `result` fact is in
the environment after `env.run()` — never zero, never two — with the
rules evaluated in the fixed order 1, 2, 3. -/
theorem exactly_one_result_fact :
    ∀ f c s k : Bool,
      resultCount (envAfterRun (toSymbol f) (toSymbol c) (toSymbol s) (toSymbol k)) = 1 := by
  decide

/-- Claim C6: classification is deterministic and history-free — a run's
outcome (message and final environment) is independent of whatever state
earlier runs left, because the environment is reset at the start of every
run, and repeating a run with the same record reproduces its message. -/
theorem diagnosis_deterministic_and_history_free :
    ∀ (prev₁ prev₂ : List CFact) (fe co sm ct : String),
      run_diagnosis_from prev₁ fe co sm ct = run_diagnosis_from prev₂ fe co sm ct ∧
        (run_diagnosis_from (run_diagnosis_from prev₁ fe co sm ct).2 fe co sm ct).1 =
          run_diagnosis fe co sm ct := by
  intro prev₁ prev₂ fe co sm ct
  exact ⟨rfl, rfl⟩

/-- Claim C7: the rule-engine formulation (rules 2 and 3 guarded by
`(not (result))`, fired by forward chaining) agrees with the spec's
direct priority-ordered else-if chain on all 16 input combinations. -/
theorem engine_equivalent_to_spec_chain :
    ∀ f c s k : Bool, classify ⟨f, c, s, k⟩ = classifySpecChain ⟨f, c, s, k⟩ := by decide

/-- Claim C8: each flag defaults to `no` when unspecified — a patient
fact built without a slot classifies exactly like one with that slot
explicitly `no` — and every UI variable starts out as `"no"`. -/
theorem flags_default_to_no :
    (∀ a b c : String,
      classifyPatientFact { cough := a, loss_of_smell := b, contact_with_patient := c } =
        classifyPatientFact ⟨"no", a, b, c⟩) ∧
    (∀ a b c : String,
      classifyPatientFact { fever := a, loss_of_smell := b, contact_with_patient := c } =
        classifyPatientFact ⟨a, "no", b, c⟩) ∧
    (∀ a b c : String,
      classifyPatientFact { fever := a, cough := b, contact_with_patient := c } =
        classifyPatientFact ⟨a, b, "no", c⟩) ∧
    (∀ a b c : String,
      classifyPatientFact { fever := a, cough := b, loss_of_smell := c } =
        classifyPatientFact ⟨a, b, c, "no"⟩) ∧
    fever_var = "no" ∧ cough_var = "no" ∧ loss_of_smell_var = "no" ∧ contact_var = "no" :=
  ⟨fun _ _ _ => rfl, fun _ _ _ => rfl, fun _ _ _ => rfl, fun _ _ _ => rfl,
    rfl, rfl, rfl, rfl⟩

/-- Claim C9: the rules match only the exact symbol `yes`, so a patient
fact whose slot values are any other symbols classifies as low risk, and
the interpolated fact string passes the raw UI values through to the
engine unchecked. -/
theorem non_yes_symbols_classified_low :
    ∀ fe co sm ct : String,
      assert_string fe co sm ct = CFact.patient fe co sm ct ∧
        (fe ≠ "yes" → co ≠ "yes" → sm ≠ "yes" → ct ≠ "yes" →
          run_diagnosis fe co sm ct = LOW_RISK_MSG) := by
  intro fe co sm ct
  refine ⟨rfl, fun h1 h2 h3 h4 => ?_⟩
  rw [run_diagnosis_spec]
  simp [beq_yes_false h1, beq_yes_false h3]

/-- Witness for claim C9 at four symbols that are neither `yes` nor `no`. -/
theorem non_yes_symbols_classified_low_witness :
    ("maybe" : String) ≠ "yes" ∧ ("dunno" : String) ≠ "yes" ∧
      ("kinda" : String) ≠ "yes" ∧ ("unsure" : String) ≠ "yes" ∧
      run_diagnosis "maybe" "dunno" "kinda" "unsure" = LOW_RISK_MSG :=
  ⟨by decide, by decide, by decide, by decide,
    (non_yes_symbols_classified_low "maybe" "dunno" "kinda" "unsure").2
      (by decide) (by decide) (by decide) (by decide)⟩

/-- Claim C10: the displayed message is the `message` slot of the first
`result` fact found while iterating the facts; when no `result` fact
exists the display is exactly the fallback message; and after a run of
this knowledge base the fallback is never displayed. -/
theorem display_shows_first_result_fact :
    (∀ (fs : List CFact) (m : String),
        fs.find? isResult = some (CFact.result m) → display fs = m) ∧
    (∀ fs : List CFact, fs.find? isResult = none → display fs = NO_DIAGNOSIS_MSG) ∧
    (∀ fe co sm ct : String, display (envAfterRun fe co sm ct) ≠ NO_DIAGNOSIS_MSG) := by
  refine ⟨?_, ?_, ?_⟩
  · intro fs m h
    induction fs with
    | nil => exact Option.noConfusion h
    | cons f fs ih =>
      cases f with
      | initial => exact ih h
      | patient a b c d => exact ih h
      | result m₀ =>
        have h' : CFact.result m₀ = CFact.result m := Option.some.inj h
        have hm : m₀ = m := by injection h'
        subst hm
        rfl
  · intro fs h
    induction fs with
    | nil => rfl
    | cons f fs ih =>
      cases f with
      | initial => exact ih h
      | patient a b c d => exact ih h
      | result m₀ => exact Option.noConfusion h
  · intro fe co sm ct
    rw [envAfterRun_spec]
    cases h1 : fe == "yes" && sm == "yes" <;>
      cases h2 : fe == "yes" && co == "yes" && ct == "yes" <;>
        simp [display, displayLoop, h1, h2, HIGH_RISK_MSG, MODERATE_RISK_MSG,
          LOW_RISK_MSG, NO_DIAGNOSIS_MSG]

/-- Witness for claim C10: the first-result scan and the fallback, each
at a concrete fact list. -/
theorem display_shows_first_result_fact_witness :
    display [CFact.initial, CFact.result "ok"] = "ok" ∧
      display [CFact.initial, CFact.patient "no" "no" "no" "no"] = NO_DIAGNOSIS_MSG := by
  constructor
  · exact display_shows_first_result_fact.1 [CFact.initial, CFact.result "ok"] "ok" rfl
  · exact display_shows_first_result_fact.2.1
      [CFact.initial, CFact.patient "no" "no" "no" "no"] rfl
